import Mathlib

/-!
Verification of the agent response loop of the ai-chatbot-template
repository (files `src/agents/base_agent.py` and `src/agents/agent_manager.py`).

The Language-Model Capability is external; it is modelled as a function
from the message context to `Except String LLMResponse` (an `Except.error`
models a raised exception).  Tool invocation functions are likewise
modelled as functions returning `Except String (Option String)`: an
`Except.error` models a raised exception, and the `Option` models a Python
function returning `None`.  Timestamps on messages are real-time data and
are omitted; the `metadata` map of an assistant message is modelled by the
`tools_executed` list it carries (its only content in `chat`).
-/

namespace ChatbotTemplate

/-- A stored chat message (dataclass `Message` in `base_agent.py`).
`metadata` keeps the `tools_executed` list that `chat` stores there. -/
structure Message where
  role : String
  content : String
  metadata : List String := []
  deriving Repr, DecidableEq

/-- A tool invocation requested by the model: `{name, args, id}`.
Arguments are an opaque keyword payload, modelled as key/value pairs. -/
structure ToolCall where
  name : String
  args : List (String × String)
  id : String
  deriving Repr, DecidableEq

/-- A context message handed to the Language-Model Capability
(`SystemMessage` / `HumanMessage` / `AIMessage` / `ToolMessage` from
langchain).  An `ai` message carries the tool calls the model requested;
a `tool` message carries its `tool_call_id`. -/
inductive BMessage where
  | system (content : String)
  | human (content : String)
  | ai (content : String) (toolCalls : List ToolCall)
  | tool (content : String) (toolCallId : String)
  deriving Repr, DecidableEq

/-- What the Language-Model Capability returns: response text and the
list of requested tool invocations (`response.content`,
`response.tool_calls`). -/
structure LLMResponse where
  content : String
  tool_calls : List ToolCall
  deriving Repr, DecidableEq

/-- The Language-Model Capability: context in, response out;
`Except.error` models a raised exception. -/
def LLMFun : Type := List BMessage → Except String LLMResponse

/-- A registered tool (a langchain `Tool`): a name and an invocation
function.  The function returns `Except.error` for a raised exception and
`none` for a Python `None` result.  The Python calling convention
(single positional argument vs keyword expansion) is absorbed into the
abstract function. -/
structure Tool where
  name : String
  func : List (String × String) → Except String (Option String)

/-- The state of a `BaseAgent` that `chat` reads and writes: the fields
extracted from the configuration in `BaseAgent.__init__` plus the
conversation history.  `use_rag` is kept because the configuration
declares it, although `chat` never reads it. -/
structure Agent where
  name : String
  system_prompt : String
  use_rag : Bool
  max_history : Nat
  tools : List Tool
  conversation_history : List Message := []

/-- Python tail slice `l[-k:]`: for `k = 0` this is `l[0:]`, the whole
list; for `k > 0` it is the last `min k l.length` elements. -/
def pyTailSlice (k : Nat) (l : List α) : List α :=
  if k = 0 then l else l.drop (l.length - k)

/-- Conversion of a stored message to a context message, as in the loop
of `_build_messages_for_history`: `user` becomes a `HumanMessage`,
`assistant` an `AIMessage`, every other role is skipped. -/
def msgToBM (m : Message) : Option BMessage :=
  if m.role == "user" then some (BMessage.human m.content)
  else if m.role == "assistant" then some (BMessage.ai m.content [])
  else none

/-- Embeds `BaseAgent._build_messages_for_history`: the system prompt followed
by the history truncated to the last `max_history * 2` stored messages. -/
def buildMessagesForHistory (a : Agent) : List BMessage :=
  BMessage.system a.system_prompt ::
    (pyTailSlice (a.max_history * 2) a.conversation_history).filterMap msgToBM

/-- The context of the first model invocation in `chat`: the history
context with the new user message appended. -/
def firstInvocationContext (a : Agent) (message : String) : List BMessage :=
  buildMessagesForHistory a ++ [BMessage.human message]

/-- Python string interpolation applied to an `Optional[str]`: `None` prints as
`"None"`. -/
def pyOptStr : Option String → String
  | none => "None"
  | some s => s

/-- The body of the `for tool in self.tools` search once a matching tool
is found: execute it, catching exceptions into an error string.  Returns
the `tool_result` value after the loop and the entry appended to
`tool_calls_made` (only a non-raising execution appends one). -/
def runFound (t : Tool) (tc : ToolCall) : Option String × Option String :=
  match t.func tc.args with
  | .ok r => (r, some (tc.name ++ ": " ++ pyOptStr r))
  | .error e => (some ("Error executing " ++ tc.name ++ ": " ++ e), none)

/-- The `for tool in self.tools ... break` search for one requested call:
only the first tool whose name matches is executed; if none matches,
`tool_result` stays `None` and nothing is appended to
`tool_calls_made`. -/
def findAndRun (tools : List Tool) (tc : ToolCall) : Option String × Option String :=
  match tools.find? (fun t => t.name == tc.name) with
  | none => (none, none)
  | some t => runFound t tc

/-- Accumulator of the tool-call loop: the growing message context and
the `tool_calls_made` list. -/
structure ToolLoopState where
  messages : List BMessage
  tool_calls_made : List String
  deriving Repr

/-- One iteration of the `for tool_call in response.tool_calls` loop:
resolve and run the call, replace a `None` result by the synthesized
"Tool ... not found" text, and append the result as a tool message keyed
to the call id. -/
def stepToolCall (tools : List Tool) (st : ToolLoopState) (tc : ToolCall) :
    ToolLoopState :=
  let (res, made) := findAndRun tools tc
  let tool_result :=
    match res with
    | none => "Tool " ++ tc.name ++ " not found"
    | some s => s
  { messages := st.messages ++ [BMessage.tool tool_result tc.id]
    tool_calls_made := st.tool_calls_made ++ made.toList }

/-- The whole tool-call loop: starting from the first-invocation context
with the model's tool-request message appended, process every requested
call in order. -/
def toolResultsState (tools : List Tool) (ctx1 : List BMessage)
    (resp : LLMResponse) : ToolLoopState :=
  resp.tool_calls.foldl (stepToolCall tools)
    { messages := ctx1 ++ [BMessage.ai resp.content resp.tool_calls]
      tool_calls_made := [] }

/-- The fixed fallback text substituted for an empty response. -/
def defaultFallback : String :=
  "I apologize, but I couldn" ++ "\x27" ++ "t generate a response. Please try rephrasing your question."

/-- The emptiness test `not response_text or response_text.strip() == ""`:
true exactly when every character of the string is whitespace (in
particular for the empty string, which the first disjunct of the source
catches).  Stated over the character list so that it computes. -/
def isBlank (s : String) : Bool :=
  s.data.all Char.isWhitespace

/-- The final response text: the model text, or the fallback when it is
empty or whitespace-only. -/
def finalText (s : String) : String :=
  if isBlank s then defaultFallback else s

/-- The two appends at the end of a successful turn: the user message
and the assistant message (whose metadata records the tools
executed). -/
def appendTurn (a : Agent) (message response_text : String)
    (made : List String) : Agent :=
  { a with conversation_history := a.conversation_history ++
      [{ role := "user", content := message },
       { role := "assistant", content := response_text, metadata := made }] }

/-- The body of the `try` block of `BaseAgent.chat`, instrumented with
the list of contexts passed to the Language-Model Capability.  Returns
`(Except.error e, log)` when an invocation raises (the log still records
the attempted context) and otherwise the updated agent and response
text. -/
def chatCore (llm : LLMFun) (a : Agent) (message : String) :
    Except String (Agent × String) × List (List BMessage) :=
  let ctx1 := firstInvocationContext a message
  match llm ctx1 with
  | .error e => (.error e, [ctx1])
  | .ok response =>
    let afterTools : Except String LLMResponse × List String × List (List BMessage) :=
      if response.tool_calls.isEmpty then (.ok response, [], [ctx1])
      else
        let st := toolResultsState a.tools ctx1 response
        if st.tool_calls_made.isEmpty then (.ok response, st.tool_calls_made, [ctx1])
        else (llm st.messages, st.tool_calls_made, [ctx1, st.messages])
    match afterTools with
    | (.error e, _, log) => (.error e, log)
    | (.ok finalResp, made, log) =>
      let response_text := finalText finalResp.content
      (.ok (appendTurn a message response_text made, response_text), log)

/-- Embeds `BaseAgent.chat`: the `try`/`except` wrapper.  A raised exception is
converted into the apology string and the agent state is returned
unchanged. -/
def chat (llm : LLMFun) (a : Agent) (message : String) : Agent × String :=
  match (chatCore llm a message).1 with
  | .ok r => r
  | .error e => (a, "I apologize, but I encountered an error: " ++ e)

/-- The contexts `chat` passes to the Language-Model Capability, in
order. -/
def chatInvocationLog (llm : LLMFun) (a : Agent) (message : String) :
    List (List BMessage) :=
  (chatCore llm a message).2

/-- Embeds `BaseAgent.clear_history`. -/
def clear_history (a : Agent) : Agent :=
  { a with conversation_history := [] }

/-- The state of an `AgentManager`: the name-keyed agent mapping (a
Python dict, modelled as an association list with unique keys in
insertion order) and the current-agent pointer. -/
structure AgentManager where
  agents : List (String × Agent)
  current_agent_name : String

/-- Dict lookup `self.agents[name]` / membership `name in self.agents`. -/
def lookup (agents : List (String × Agent)) (n : String) : Option Agent :=
  (agents.find? (fun p => p.1 == n)).map Prod.snd

/-- Dict value assignment `self.agents[name] = agent` for an existing
key: the value is replaced in place, insertion order preserved.  It
models the in-place mutation of the stored agent object. -/
def updateAssoc (agents : List (String × Agent)) (n : String) (a : Agent) :
    List (String × Agent) :=
  agents.map (fun p => if p.1 == n then (p.1, a) else p)

/-- Embeds `name = agent_name or self.current_agent_name`: Python `or` treats
both `None` and the empty string as falsy. -/
def resolveName (m : AgentManager) (agent_name : Option String) : String :=
  match agent_name with
  | none => m.current_agent_name
  | some n => if n == "" then m.current_agent_name else n

/-- Embeds `AgentManager.get_agent`: resolve the name (current agent when the
argument is omitted or falsy) and raise `ValueError` when it is not a
key of the mapping. -/
def get_agent (m : AgentManager) (agent_name : Option String) :
    Except String Agent :=
  let name := resolveName m agent_name
  match lookup m.agents name with
  | none => .error ("Agent not found: " ++ name)
  | some a => .ok a

/-- Embeds `AgentManager.set_current_agent`: raise `ValueError` when the name
is not a key, otherwise move the current pointer. -/
def set_current_agent (m : AgentManager) (agent_name : String) :
    Except String AgentManager :=
  match lookup m.agents agent_name with
  | none => .error ("Agent not found: " ++ agent_name)
  | some _ => .ok { m with current_agent_name := agent_name }

/-- Embeds `AgentManager.chat`: resolve the agent with `get_agent` and delegate
to its `chat`; the returned manager carries the mutated agent. -/
def managerChat (llm : LLMFun) (m : AgentManager) (message : String)
    (agent_name : Option String) : Except String (AgentManager × String) :=
  match get_agent m agent_name with
  | .error e => .error e
  | .ok agent =>
    let r := chat llm agent message
    .ok ({ m with agents := updateAssoc m.agents (resolveName m agent_name) r.1 }, r.2)

/-- Embeds `AgentManager.clear_history`: resolve the agent with `get_agent` and
clear its history; the returned manager carries the cleared agent. -/
def managerClearHistory (m : AgentManager) (agent_name : Option String) :
    Except String AgentManager :=
  match get_agent m agent_name with
  | .error e => .error e
  | .ok agent =>
    .ok { m with agents :=
      updateAssoc m.agents (resolveName m agent_name) (clear_history agent) }

/-! Concrete fixtures used to instantiate the theorems below. -/

/-- A tool that always succeeds. -/
def toolCalc : Tool :=
  { name := "calculator", func := fun _ => .ok (some "4") }

/-- First of two tools sharing a name. -/
def toolDupA : Tool :=
  { name := "dup", func := fun _ => .ok (some "from A") }

/-- Second of two tools sharing a name. -/
def toolDupB : Tool :=
  { name := "dup", func := fun _ => .ok (some "from B") }

/-- A plain agent without tools. -/
def agentA : Agent :=
  { name := "default", system_prompt := "You are a helpful AI assistant.",
    use_rag := false, max_history := 1, tools := [], conversation_history := [] }

/-- An agent with retrieval enabled and no tools configured. -/
def agentRag : Agent :=
  { name := "helper", system_prompt := "You answer from the knowledge base.",
    use_rag := true, max_history := 10, tools := [], conversation_history := [] }

/-- An agent owning the calculator tool. -/
def agentCalc : Agent :=
  { name := "calcbot", system_prompt := "You can calculate.",
    use_rag := false, max_history := 10, tools := [toolCalc],
    conversation_history := [] }

/-- An agent with two tools sharing the name `dup`. -/
def agentDup : Agent :=
  { name := "dupbot", system_prompt := "sp",
    use_rag := false, max_history := 10, tools := [toolDupA, toolDupB],
    conversation_history := [] }

/-- A second agent with a non-empty history, used for isolation tests. -/
def agentB : Agent :=
  { name := "other", system_prompt := "Other prompt.",
    use_rag := false, max_history := 10, tools := [],
    conversation_history :=
      [{ role := "user", content := "x" }, { role := "assistant", content := "y" }] }

/-- A language model that always raises. -/
def llmBoom : LLMFun := fun _ => .error "boom"

/-- A language model that answers with fixed text and no tool calls. -/
def llmEcho : LLMFun := fun _ => .ok { content := "Hi there.", tool_calls := [] }

/-- A language model that returns the empty string and no tool calls. -/
def llmEmpty : LLMFun := fun _ => .ok { content := "", tool_calls := [] }

/-- A language model that requests the unregistered tool `ghost`. -/
def llmGhost : LLMFun := fun _ =>
  .ok { content := "ghost request",
        tool_calls := [{ name := "ghost", args := [], id := "id1" }] }

/-- A language model that requests the unregistered tool `phantom`. -/
def llmPhantom : LLMFun := fun _ =>
  .ok { content := "phantom request",
        tool_calls := [{ name := "phantom", args := [], id := "id2" }] }

/-- Whether a context already carries a tool-result message. -/
def hasToolMsg (ctx : List BMessage) : Bool :=
  ctx.any fun m =>
    match m with
    | .tool _ _ => true
    | _ => false

/-- A language model that requests the calculator on the first round and
answers with text once tool results are present. -/
def llmCalc : LLMFun := fun ctx =>
  if hasToolMsg ctx then .ok { content := "The answer is 4.", tool_calls := [] }
  else .ok { content := "",
             tool_calls := [{ name := "calculator",
                              args := [("expression", "2+2")], id := "call1" }] }

/-- A directory holding `agentA` under `default` and `agentB` under
`other`, with `default` current. -/
def mgr0 : AgentManager :=
  { agents := [("default", agentA), ("other", agentB)],
    current_agent_name := "default" }

/-- An agent configured with `max_history = 0` and a non-empty
history. -/
def agentZero : Agent :=
  { name := "zero", system_prompt := "sp0", use_rag := false, max_history := 0,
    tools := [],
    conversation_history :=
      [{ role := "user", content := "m1" }, { role := "assistant", content := "r1" },
       { role := "user", content := "m2" }] }

/-- Whether a context message is system-role. -/
def isSystemB : BMessage → Bool
  | .system _ => true
  | _ => false

/-! Equation lemmas for `chatCore`, one per control path of `chat`. -/

/-- Path 1: the first model invocation raises. -/
theorem chatCore_first_error (llm : LLMFun) (a : Agent) (message e : String)
    (h : llm (firstInvocationContext a message) = .error e) :
    chatCore llm a message = (.error e, [firstInvocationContext a message]) := by
  unfold chatCore
  dsimp only
  rw [h]

/-- Path 2: the first invocation succeeds with no tool calls. -/
theorem chatCore_no_toolcalls (llm : LLMFun) (a : Agent) (message : String)
    (resp : LLMResponse)
    (h : llm (firstInvocationContext a message) = .ok resp)
    (h2 : resp.tool_calls = []) :
    chatCore llm a message =
      (.ok (appendTurn a message (finalText resp.content) [],
            finalText resp.content),
       [firstInvocationContext a message]) := by
  unfold chatCore
  dsimp only
  rw [h]
  simp [h2]

/-- Path 3: tool calls are requested but none executes successfully
(`tool_calls_made` stays empty), so no second invocation happens. -/
theorem chatCore_tools_unexecuted (llm : LLMFun) (a : Agent) (message : String)
    (resp : LLMResponse)
    (h : llm (firstInvocationContext a message) = .ok resp)
    (h2 : resp.tool_calls ≠ [])
    (h3 : (toolResultsState a.tools (firstInvocationContext a message)
            resp).tool_calls_made = []) :
    chatCore llm a message =
      (.ok (appendTurn a message (finalText resp.content) [],
            finalText resp.content),
       [firstInvocationContext a message]) := by
  unfold chatCore
  dsimp only
  rw [h]
  simp [h2, h3]

/-- Path 4: a tool executed, and the second invocation raises. -/
theorem chatCore_second_error (llm : LLMFun) (a : Agent) (message e : String)
    (resp : LLMResponse)
    (h : llm (firstInvocationContext a message) = .ok resp)
    (h2 : resp.tool_calls ≠ [])
    (h3 : (toolResultsState a.tools (firstInvocationContext a message)
            resp).tool_calls_made ≠ [])
    (h4 : llm (toolResultsState a.tools (firstInvocationContext a message)
            resp).messages = .error e) :
    chatCore llm a message =
      (.error e,
       [firstInvocationContext a message,
        (toolResultsState a.tools (firstInvocationContext a message) resp).messages]) := by
  unfold chatCore
  dsimp only
  rw [h]
  simp [h2, h3, h4]

/-- Path 5: a tool executed, and the second invocation succeeds. -/
theorem chatCore_second_ok (llm : LLMFun) (a : Agent) (message : String)
    (resp r2 : LLMResponse)
    (h : llm (firstInvocationContext a message) = .ok resp)
    (h2 : resp.tool_calls ≠ [])
    (h3 : (toolResultsState a.tools (firstInvocationContext a message)
            resp).tool_calls_made ≠ [])
    (h4 : llm (toolResultsState a.tools (firstInvocationContext a message)
            resp).messages = .ok r2) :
    chatCore llm a message =
      (.ok (appendTurn a message (finalText r2.content)
              (toolResultsState a.tools (firstInvocationContext a message)
                resp).tool_calls_made,
            finalText r2.content),
       [firstInvocationContext a message,
        (toolResultsState a.tools (firstInvocationContext a message) resp).messages]) := by
  unfold chatCore
  dsimp only
  rw [h]
  simp [h2, h3, h4]

/-! Shared helper lemmas. -/

/-- The Python tail slice is a suffix of the list. -/
theorem pyTailSlice_isSuffix (k : Nat) (l : List α) : pyTailSlice k l <:+ l := by
  unfold pyTailSlice
  split
  · exact List.suffix_refl l
  · exact ⟨l.take (l.length - k), List.take_append_drop _ l⟩

/-- For a positive count the Python tail slice keeps at most `k`
elements. -/
theorem pyTailSlice_length_le (k : Nat) (l : List α) (hk : k ≠ 0) :
    (pyTailSlice k l).length ≤ k := by
  unfold pyTailSlice
  rw [if_neg hk, List.length_drop]
  omega

/-- `filterMap` maps suffixes to suffixes. -/
theorem filterMap_isSuffix (f : α → Option β) {l₁ l₂ : List α}
    (h : l₁ <:+ l₂) : l₁.filterMap f <:+ l₂.filterMap f := by
  obtain ⟨t, rfl⟩ := h
  exact ⟨t.filterMap f, (List.filterMap_append t l₁ f).symm⟩

/-- A successful `chat` turn appends the user message and the assistant
message; a failed one leaves the agent unchanged.  Either way the old
history is a prefix of the new one. -/
theorem chat_extends_history (llm : LLMFun) (a : Agent) (msg : String) :
    a.conversation_history <+: (chat llm a msg).1.conversation_history := by
  cases hl : llm (firstInvocationContext a msg) with
  | error e =>
    unfold chat
    rw [chatCore_first_error llm a msg e hl]
  | ok resp =>
    by_cases hemp : resp.tool_calls = []
    · unfold chat
      rw [chatCore_no_toolcalls llm a msg resp hl hemp]
      exact ⟨_, rfl⟩
    · by_cases hmade : (toolResultsState a.tools (firstInvocationContext a msg)
          resp).tool_calls_made = []
      · unfold chat
        rw [chatCore_tools_unexecuted llm a msg resp hl hemp hmade]
        exact ⟨_, rfl⟩
      · cases h2 : llm (toolResultsState a.tools (firstInvocationContext a msg)
            resp).messages with
        | error e =>
          unfold chat
          rw [chatCore_second_error llm a msg e resp hl hemp hmade h2]
        | ok r2 =>
          unfold chat
          rw [chatCore_second_ok llm a msg resp r2 hl hemp hmade h2]
          exact ⟨_, rfl⟩

/-! Claim theorems. -/

/-- C1: if an exception is raised inside the `try` block of `chat` (for
example the Language-Model Capability raising on the first invocation),
the Conversation State is unchanged — same list, hence same length — and
`chat` returns the synthesized apology string containing the error
description instead of raising. -/
theorem chat_exception_atomic (llm : LLMFun) (a : Agent) (message e : String)
    (h : (chatCore llm a message).1 = .error e) :
    (chat llm a message).1.conversation_history = a.conversation_history ∧
    (chat llm a message).1.conversation_history.length =
      a.conversation_history.length ∧
    (chat llm a message).2 = "I apologize, but I encountered an error: " ++ e := by
  unfold chat
  rw [h]
  exact ⟨rfl, rfl, rfl⟩

/-- Witness for C1: a model that raises `"boom"` on every invocation. -/
theorem chat_exception_atomic_witness :
    (chat llmBoom agentA "hi").1.conversation_history = agentA.conversation_history ∧
    (chat llmBoom agentA "hi").1.conversation_history.length =
      agentA.conversation_history.length ∧
    (chat llmBoom agentA "hi").2 = "I apologize, but I encountered an error: " ++ "boom" :=
  chat_exception_atomic llmBoom agentA "hi" "boom" rfl

/-- C2: for an agent with `max_history = H ≥ 1` the model context is the
system message, then at most `2 * H` history messages that form a suffix
of the (converted) full history, then the new user message; the stored
Conversation State itself is only ever extended by `chat`. -/
theorem context_truncation (llm : LLMFun) (a : Agent) (msg : String)
    (h1 : 1 ≤ a.max_history) :
    (buildMessagesForHistory a).head? = some (BMessage.system a.system_prompt) ∧
    (buildMessagesForHistory a).length ≤ 1 + 2 * a.max_history ∧
    (buildMessagesForHistory a).tail <:+ a.conversation_history.filterMap msgToBM ∧
    (firstInvocationContext a msg).getLast? = some (BMessage.human msg) ∧
    a.conversation_history <+: (chat llm a msg).1.conversation_history := by
  refine ⟨rfl, ?_, ?_, ?_, chat_extends_history llm a msg⟩
  · unfold buildMessagesForHistory
    have hk : a.max_history * 2 ≠ 0 := by omega
    have hs := pyTailSlice_length_le (a.max_history * 2) a.conversation_history hk
    have hf := List.length_filterMap_le msgToBM
      (pyTailSlice (a.max_history * 2) a.conversation_history)
    simp only [List.length_cons]
    omega
  · exact filterMap_isSuffix msgToBM
      (pyTailSlice_isSuffix (a.max_history * 2) a.conversation_history)
  · exact List.getLast?_concat _

/-- Witness for C2 at `max_history = 1`. -/
theorem context_truncation_witness :
    (buildMessagesForHistory agentA).head? = some (BMessage.system agentA.system_prompt) ∧
    (buildMessagesForHistory agentA).length ≤ 1 + 2 * agentA.max_history ∧
    (buildMessagesForHistory agentA).tail <:+ agentA.conversation_history.filterMap msgToBM ∧
    (firstInvocationContext agentA "hi").getLast? = some (BMessage.human "hi") ∧
    agentA.conversation_history <+: (chat llmEcho agentA "hi").1.conversation_history :=
  context_truncation llmEcho agentA "hi" (by decide)

/-- C9: with `max_history = 0` the slice `[-0:]` is the whole list, so
the context contains the entire conversation history — truncation is a
no-op rather than excluding all history. -/
theorem no_truncation_when_zero (a : Agent) (h : a.max_history = 0) :
    buildMessagesForHistory a =
      BMessage.system a.system_prompt ::
        a.conversation_history.filterMap msgToBM := by
  unfold buildMessagesForHistory pyTailSlice
  rw [h]
  simp

/-- Witness for C9: an agent with `max_history = 0` and three stored
messages. -/
theorem no_truncation_when_zero_witness :
    buildMessagesForHistory agentZero =
      BMessage.system agentZero.system_prompt ::
        agentZero.conversation_history.filterMap msgToBM :=
  no_truncation_when_zero agentZero rfl

/-- C6: when the model answers with no tool calls and empty (or
whitespace-only) text, `chat` returns the fixed fallback string, and the
fallback — not the empty string — is what is appended to Conversation
State as the assistant message. -/
theorem empty_response_fallback (llm : LLMFun) (a : Agent) (msg : String)
    (resp : LLMResponse)
    (h : llm (firstInvocationContext a msg) = .ok resp)
    (h2 : resp.tool_calls = [])
    (h3 : isBlank resp.content = true) :
    (chat llm a msg).2 = defaultFallback ∧
    (chat llm a msg).1.conversation_history =
      a.conversation_history ++
        [{ role := "user", content := msg },
         { role := "assistant", content := defaultFallback, metadata := [] }] := by
  have hf : finalText resp.content = defaultFallback := by
    unfold finalText
    simp [h3]
  unfold chat
  rw [chatCore_no_toolcalls llm a msg resp h h2, hf]
  exact ⟨rfl, rfl⟩

/-- Witness for C6: a model returning the empty string. -/
theorem empty_response_fallback_witness :
    (chat llmEmpty agentA "hi").2 = defaultFallback ∧
    (chat llmEmpty agentA "hi").1.conversation_history =
      agentA.conversation_history ++
        [{ role := "user", content := "hi" },
         { role := "assistant", content := defaultFallback, metadata := [] }] :=
  empty_response_fallback llmEmpty agentA "hi"
    { content := "", tool_calls := [] } rfl rfl rfl

/-- C3 counterexample: for an agent with retrieval enabled and no tools
configured, the context of the model invocation is exactly the system
prompt followed by the user message — no passage message is fetched or
injected, and the single invocation of the turn receives exactly that
two-element context. -/
theorem no_rag_injection_counterexample :
    agentRag.use_rag = true ∧ agentRag.tools = [] ∧
    firstInvocationContext agentRag "What is RAG?" =
      [BMessage.system "You answer from the knowledge base.",
       BMessage.human "What is RAG?"] ∧
    chatInvocationLog llmEcho agentRag "What is RAG?" =
      [[BMessage.system "You answer from the knowledge base.",
        BMessage.human "What is RAG?"]] :=
  ⟨rfl, rfl, rfl, rfl⟩

/-- C3 amended: `chat` never consults the Retrieval Capability; even
with retrieval enabled and no tools, the model context carries exactly
one system-role message — the system prompt — and ends with the user
message, with nothing injected between history and user message. -/
theorem no_rag_injection (a : Agent) (msg : String)
    (_h1 : a.use_rag = true) (_h2 : a.tools = []) :
    (firstInvocationContext a msg).countP isSystemB = 1 ∧
    (firstInvocationContext a msg).head? = some (BMessage.system a.system_prompt) ∧
    (firstInvocationContext a msg).getLast? = some (BMessage.human msg) ∧
    firstInvocationContext a msg =
      BMessage.system a.system_prompt ::
        ((pyTailSlice (a.max_history * 2) a.conversation_history).filterMap msgToBM
          ++ [BMessage.human msg]) := by
  refine ⟨?_, rfl, List.getLast?_concat _, by
    unfold firstInvocationContext buildMessagesForHistory
    simp⟩
  unfold firstInvocationContext buildMessagesForHistory
  rw [List.cons_append, List.countP_cons_of_pos _ _ (by rfl), List.countP_append]
  have hz : ((pyTailSlice (a.max_history * 2) a.conversation_history).filterMap
      msgToBM).countP isSystemB = 0 := by
    rw [List.countP_eq_zero]
    intro b hb
    rw [List.mem_filterMap] at hb
    obtain ⟨m, _, hm⟩ := hb
    unfold msgToBM at hm
    split at hm
    · cases hm
      simp [isSystemB]
    · split at hm
      · cases hm
        simp [isSystemB]
      · cases hm
  rw [hz]
  rfl

/-- Witness for C3 amended, at the retrieval-enabled agent. -/
theorem no_rag_injection_witness :
    (firstInvocationContext agentRag "q").countP isSystemB = 1 ∧
    (firstInvocationContext agentRag "q").head? =
      some (BMessage.system agentRag.system_prompt) ∧
    (firstInvocationContext agentRag "q").getLast? = some (BMessage.human "q") ∧
    firstInvocationContext agentRag "q" =
      BMessage.system agentRag.system_prompt ::
        ((pyTailSlice (agentRag.max_history * 2)
            agentRag.conversation_history).filterMap msgToBM
          ++ [BMessage.human "q"]) :=
  no_rag_injection agentRag "q" rfl rfl

/-- Helper: when no requested tool call resolves, the loop appends one
synthesized "not found" tool message per call and `tool_calls_made`
stays as it was. -/
theorem foldl_stepToolCall_all_missing (tools : List Tool) (l : List ToolCall)
    (st : ToolLoopState)
    (h : ∀ tc ∈ l, tools.find? (fun t => t.name == tc.name) = none) :
    l.foldl (stepToolCall tools) st =
      { messages := st.messages ++
          l.map (fun tc => BMessage.tool ("Tool " ++ tc.name ++ " not found") tc.id)
        tool_calls_made := st.tool_calls_made } := by
  induction l generalizing st with
  | nil => simp
  | cons tc rest ih =>
    rw [List.foldl_cons, ih _ (fun x hx => h x (List.mem_cons_of_mem tc hx))]
    unfold stepToolCall findAndRun
    rw [h tc (List.mem_cons_self tc rest)]
    simp

/-- C4 counterexample: the model requests only the unregistered tool
`ghost`; `chat` performs a single model invocation — the log has exactly
one entry — so there is no second-round context for the synthesized
"tool not found" text to appear in, and the returned answer is the first
response's text. -/
theorem tool_not_found_counterexample :
    agentA.tools.find? (fun t => t.name == "ghost") = none ∧
    llmGhost (firstInvocationContext agentA "hi") =
      .ok { content := "ghost request",
            tool_calls := [{ name := "ghost", args := [], id := "id1" }] } ∧
    chatInvocationLog llmGhost agentA "hi" =
      [firstInvocationContext agentA "hi"] ∧
    (chat llmGhost agentA "hi").2 = "ghost request" :=
  ⟨rfl, rfl, rfl, rfl⟩

/-- C4 amended: when every tool call of the first response (here: a
single one) names an unregistered tool, `chat` synthesizes the "tool not
found" text as a tool message of the turn context, performs no
second-round model invocation, and returns — without raising — the final
text derived from the first response. -/
theorem tool_not_found_behavior (llm : LLMFun) (a : Agent) (msg : String)
    (resp : LLMResponse) (tc : ToolCall)
    (h : llm (firstInvocationContext a msg) = .ok resp)
    (h2 : resp.tool_calls = [tc])
    (h3 : a.tools.find? (fun t => t.name == tc.name) = none) :
    (toolResultsState a.tools (firstInvocationContext a msg) resp).messages =
      firstInvocationContext a msg ++
        [BMessage.ai resp.content resp.tool_calls,
         BMessage.tool ("Tool " ++ tc.name ++ " not found") tc.id] ∧
    chatInvocationLog llm a msg = [firstInvocationContext a msg] ∧
    (chat llm a msg).2 = finalText resp.content := by
  have hst : toolResultsState a.tools (firstInvocationContext a msg) resp =
      { messages := firstInvocationContext a msg ++
          [BMessage.ai resp.content resp.tool_calls,
           BMessage.tool ("Tool " ++ tc.name ++ " not found") tc.id]
        tool_calls_made := [] } := by
    unfold toolResultsState
    rw [h2, foldl_stepToolCall_all_missing a.tools [tc] _
      (by intro x hx; rw [List.mem_singleton] at hx; subst hx; exact h3)]
    simp [h2]
  have hmade : (toolResultsState a.tools (firstInvocationContext a msg)
      resp).tool_calls_made = [] := by rw [hst]
  have hcc := chatCore_tools_unexecuted llm a msg resp h (by simp [h2]) hmade
  refine ⟨by rw [hst], ?_, ?_⟩
  · unfold chatInvocationLog
    rw [hcc]
  · unfold chat
    rw [hcc]

/-- Witness for C4 amended: the calculator agent receives a request for
the absent tool `phantom`. -/
theorem tool_not_found_behavior_witness :
    (toolResultsState agentCalc.tools (firstInvocationContext agentCalc "go")
        { content := "phantom request",
          tool_calls := [{ name := "phantom", args := [], id := "id2" }] }).messages =
      firstInvocationContext agentCalc "go" ++
        [BMessage.ai "phantom request" [{ name := "phantom", args := [], id := "id2" }],
         BMessage.tool ("Tool " ++ "phantom" ++ " not found") "id2"] ∧
    chatInvocationLog llmPhantom agentCalc "go" =
      [firstInvocationContext agentCalc "go"] ∧
    (chat llmPhantom agentCalc "go").2 =
      finalText "phantom request" :=
  tool_not_found_behavior llmPhantom agentCalc "go"
    { content := "phantom request",
      tool_calls := [{ name := "phantom", args := [], id := "id2" }] }
    { name := "phantom", args := [], id := "id2" } rfl rfl rfl

/-- C5 counterexample: the model's first response requests a tool
invocation (of an absent tool), the synthesized tool result is appended
to the turn context, yet the turn performs a single model invocation in
total — the model is not re-invoked at all, not "exactly once". -/
theorem single_reinvocation_counterexample :
    llmPhantom (firstInvocationContext agentA "hello") =
      .ok { content := "phantom request",
            tool_calls := [{ name := "phantom", args := [], id := "id2" }] } ∧
    (toolResultsState agentA.tools (firstInvocationContext agentA "hello")
        { content := "phantom request",
          tool_calls := [{ name := "phantom", args := [], id := "id2" }] }).messages =
      firstInvocationContext agentA "hello" ++
        [BMessage.ai "phantom request" [{ name := "phantom", args := [], id := "id2" }],
         BMessage.tool "Tool phantom not found" "id2"] ∧
    (chatInvocationLog llmPhantom agentA "hello").length = 1 :=
  ⟨rfl, rfl, rfl⟩

/-- C5 amended: a turn performs at most two model invocations, and
exactly two precisely when the first response requested tool calls and
at least one of them executed successfully (`tool_calls_made` is
non-empty); otherwise the model is not re-invoked. -/
theorem reinvocation_bound (llm : LLMFun) (a : Agent) (msg : String)
    (resp : LLMResponse)
    (h : llm (firstInvocationContext a msg) = .ok resp) :
    (chatInvocationLog llm a msg).length ≤ 2 ∧
    ((chatInvocationLog llm a msg).length = 2 ↔
      resp.tool_calls ≠ [] ∧
      (toolResultsState a.tools (firstInvocationContext a msg)
        resp).tool_calls_made ≠ []) := by
  by_cases hemp : resp.tool_calls = []
  · unfold chatInvocationLog
    rw [chatCore_no_toolcalls llm a msg resp h hemp]
    simp [hemp]
  · by_cases hmade : (toolResultsState a.tools (firstInvocationContext a msg)
        resp).tool_calls_made = []
    · unfold chatInvocationLog
      rw [chatCore_tools_unexecuted llm a msg resp h hemp hmade]
      simp [hmade]
    · cases h2 : llm (toolResultsState a.tools (firstInvocationContext a msg)
          resp).messages with
      | error e =>
        unfold chatInvocationLog
        rw [chatCore_second_error llm a msg e resp h hemp hmade h2]
        simp [hemp, hmade]
      | ok r2 =>
        unfold chatInvocationLog
        rw [chatCore_second_ok llm a msg resp r2 h hemp hmade h2]
        simp [hemp, hmade]

/-- Witness for C5 amended: the calculator round-trip performs exactly
two invocations. -/
theorem reinvocation_bound_witness :
    (chatInvocationLog llmCalc agentCalc "2+2?").length ≤ 2 ∧
    ((chatInvocationLog llmCalc agentCalc "2+2?").length = 2 ↔
      ({ content := "",
         tool_calls := [{ name := "calculator",
                          args := [("expression", "2+2")],
                          id := "call1" }] } : LLMResponse).tool_calls ≠ [] ∧
      (toolResultsState agentCalc.tools (firstInvocationContext agentCalc "2+2?")
        { content := "",
          tool_calls := [{ name := "calculator",
                           args := [("expression", "2+2")],
                           id := "call1" }] }).tool_calls_made ≠ []) :=
  reinvocation_bound llmCalc agentCalc "2+2?"
    { content := "",
      tool_calls := [{ name := "calculator",
                       args := [("expression", "2+2")], id := "call1" }] }
    rfl

/-- C10: when several descriptors in the active tool list share the
requested name, the `for tool in self.tools ... break` search stops at
the first one: resolution returns the first matching descriptor, the
whole call executes exactly as if only that descriptor were present, and
later same-named descriptors are never executed. -/
theorem first_match_wins (ts1 ts2 ts3 : List Tool) (t1 t2 : Tool)
    (tc : ToolCall) (st : ToolLoopState)
    (h1 : ∀ t ∈ ts1, t.name ≠ tc.name)
    (ht1 : t1.name = tc.name) (_ht2 : t2.name = tc.name) :
    (ts1 ++ t1 :: ts2 ++ t2 :: ts3).find? (fun t => t.name == tc.name) = some t1 ∧
    findAndRun (ts1 ++ t1 :: ts2 ++ t2 :: ts3) tc = runFound t1 tc ∧
    stepToolCall (ts1 ++ t1 :: ts2 ++ t2 :: ts3) st tc = stepToolCall [t1] st tc := by
  have hfind : (ts1 ++ t1 :: ts2 ++ t2 :: ts3).find?
      (fun t => t.name == tc.name) = some t1 := by
    induction ts1 with
    | nil => simp [List.find?_cons_of_pos, ht1]
    | cons hd tl ih =>
      rw [List.cons_append, List.cons_append,
        List.find?_cons_of_neg _ (by simp [h1 hd (List.mem_cons_self hd tl)])]
      exact ih fun t ht => h1 t (List.mem_cons_of_mem hd ht)
  refine ⟨hfind, ?_, ?_⟩
  · unfold findAndRun
    rw [hfind]
  · unfold stepToolCall findAndRun
    rw [hfind, List.find?_cons_of_pos _ (by simp [ht1])]

/-- Witness for C10: two tools named `dup`; the call resolves to the
first and behaves as if the second were absent. -/
theorem first_match_wins_witness :
    ([] ++ toolDupA :: [] ++ toolDupB :: []).find?
        (fun t => t.name == "dup") = some toolDupA ∧
    findAndRun ([] ++ toolDupA :: [] ++ toolDupB :: [])
        { name := "dup", args := [], id := "d1" } =
      runFound toolDupA { name := "dup", args := [], id := "d1" } ∧
    stepToolCall ([] ++ toolDupA :: [] ++ toolDupB :: [])
        { messages := [], tool_calls_made := [] }
        { name := "dup", args := [], id := "d1" } =
      stepToolCall [toolDupA]
        { messages := [], tool_calls_made := [] }
        { name := "dup", args := [], id := "d1" } :=
  first_match_wins [] [] [] toolDupA toolDupB
    { name := "dup", args := [], id := "d1" }
    { messages := [], tool_calls_made := [] }
    (by simp) rfl rfl

/-- C7 counterexample: the empty string is an unknown name (it is not a
key of the directory), yet `get_agent` does not fail with NotFound — the
Python expression `agent_name or self.current_agent_name` treats the
empty string as an omitted name and returns the current agent. -/
theorem get_agent_empty_name_counterexample :
    lookup mgr0.agents "" = none ∧
    get_agent mgr0 (some "") = .ok agentA :=
  ⟨rfl, rfl⟩

/-- C7 amended: for non-empty names, `get_agent` with an unknown name
fails with NotFound; `get_agent` with the name omitted returns the
current agent; `set_current_agent` with an unknown name fails with
NotFound (leaving the pointer unchanged) and with a known name moves the
pointer; the directory `chat` delegates to the resolved agent's `chat`.
The empty string is treated as an omitted name, not as an unknown
one. -/
theorem manager_ops (llm : LLMFun) (m : AgentManager) (nu nk : String)
    (ag agk : Agent) (msg : String)
    (hu0 : nu ≠ "")
    (hu : lookup m.agents nu = none)
    (hc : lookup m.agents m.current_agent_name = some ag)
    (hk0 : nk ≠ "")
    (hk : lookup m.agents nk = some agk) :
    get_agent m (some nu) = .error ("Agent not found: " ++ nu) ∧
    get_agent m none = .ok ag ∧
    set_current_agent m nu = .error ("Agent not found: " ++ nu) ∧
    set_current_agent m nk = .ok { m with current_agent_name := nk } ∧
    managerChat llm m msg (some nk) =
      .ok ({ m with agents := updateAssoc m.agents nk (chat llm agk msg).1 },
           (chat llm agk msg).2) := by
  have hru : resolveName m (some nu) = nu := by
    unfold resolveName
    simp [hu0]
  have hrk : resolveName m (some nk) = nk := by
    unfold resolveName
    simp [hk0]
  refine ⟨?_, ?_, ?_, ?_, ?_⟩
  · unfold get_agent
    rw [hru]
    dsimp only
    rw [hu]
  · unfold get_agent resolveName
    dsimp only
    rw [hc]
  · unfold set_current_agent
    rw [hu]
  · unfold set_current_agent
    rw [hk]
  · unfold managerChat get_agent
    rw [hrk]
    dsimp only
    rw [hk]

/-- Witness for C7 amended on the two-agent directory. -/
theorem manager_ops_witness :
    get_agent mgr0 (some "nosuch") = .error ("Agent not found: " ++ "nosuch") ∧
    get_agent mgr0 none = .ok agentA ∧
    set_current_agent mgr0 "nosuch" = .error ("Agent not found: " ++ "nosuch") ∧
    set_current_agent mgr0 "other" = .ok { mgr0 with current_agent_name := "other" } ∧
    managerChat llmEcho mgr0 "hi" (some "other") =
      .ok ({ mgr0 with
               agents := updateAssoc mgr0.agents "other" (chat llmEcho agentB "hi").1 },
           (chat llmEcho agentB "hi").2) :=
  manager_ops llmEcho mgr0 "nosuch" "other" agentA agentB "hi"
    (by decide) rfl rfl (by decide) rfl

/-- Helper: updating one key of the mapping leaves every other key's
binding unchanged. -/
theorem lookup_updateAssoc_ne (l : List (String × Agent)) (n n' : String)
    (a : Agent) (h : n' ≠ n) :
    lookup (updateAssoc l n a) n' = lookup l n' := by
  induction l with
  | nil => rfl
  | cons p t ih =>
    unfold updateAssoc at *
    by_cases hp : p.1 = n
    · unfold lookup
      rw [List.map_cons, if_pos (by simp [hp]),
        List.find?_cons_of_neg _ (by simp [hp]; exact fun hh => h hh.symm),
        List.find?_cons_of_neg _ (by simp [hp]; exact fun hh => h hh.symm)]
      exact ih
    · unfold lookup
      by_cases hp' : p.1 = n'
      · rw [List.map_cons, if_neg (by simp [hp]),
          List.find?_cons_of_pos _ (by simp [hp']),
          List.find?_cons_of_pos _ (by simp [hp'])]
      · rw [List.map_cons, if_neg (by simp [hp]),
          List.find?_cons_of_neg _ (by simp [hp']),
          List.find?_cons_of_neg _ (by simp [hp'])]
        exact ih

/-- C8: `clear_history` empties the agent's Conversation State, is
idempotent and total (the embedded operation cannot raise), and clearing
one directory entry leaves every other agent's Conversation State
untouched. -/
theorem clear_history_spec (m : AgentManager) (nA nB : String) (aA aB : Agent)
    (hA0 : nA ≠ "")
    (hA : lookup m.agents nA = some aA)
    (hB : lookup m.agents nB = some aB)
    (hne : nB ≠ nA) :
    (clear_history aA).conversation_history = [] ∧
    clear_history (clear_history aA) = clear_history aA ∧
    managerClearHistory m (some nA) =
      .ok { m with agents := updateAssoc m.agents nA (clear_history aA) } ∧
    lookup (updateAssoc m.agents nA (clear_history aA)) nB = some aB := by
  have hra : resolveName m (some nA) = nA := by
    unfold resolveName
    simp [hA0]
  refine ⟨rfl, rfl, ?_, ?_⟩
  · unfold managerClearHistory get_agent
    rw [hra]
    dsimp only
    rw [hA]
  · rw [lookup_updateAssoc_ne m.agents nA nB (clear_history aA) hne, hB]

/-- Witness for C8: clearing `default` leaves `other` intact. -/
theorem clear_history_spec_witness :
    (clear_history agentA).conversation_history = [] ∧
    clear_history (clear_history agentA) = clear_history agentA ∧
    managerClearHistory mgr0 (some "default") =
      .ok { mgr0 with agents := updateAssoc mgr0.agents "default" (clear_history agentA) } ∧
    lookup (updateAssoc mgr0.agents "default" (clear_history agentA)) "other" =
      some agentB :=
  clear_history_spec mgr0 "default" "other" agentA agentB
    (by decide) rfl rfl (by decide)

end ChatbotTemplate
